import Mathlib

/-!
Shallow embedding of the two dashboard scripts (`dataprocess4.py` and
`ticket_analysis.py`).  Order and ticket rows are modelled as structures of
optional cell values (a `none` cell is the pandas missing-value marker NaN/NaT);
timestamps are integers of epoch seconds, so the elapsed-hours computation
`(deliver - create).total_seconds() / 3600` becomes an exact rational.
In-place column assignments (`df[col] = ...`) are modelled by state passing:
each function that the source lets mutate the frame returns the post-state
frame next to its output.
-/

namespace BflReports

/-- One row of the order CSV after loading, restricted to the columns the
claims touch.  `sLA_Status` models the derived `SLA_Status` column that
`create_sla_summary` writes back into the frame (`none` = cell missing /
column not yet assigned). -/
structure OrderRow where
  orderCreateDateTime : Option Int
  deliveredAtDateTime : Option Int
  orderCategory : Option String
  orderStatus : Option String
  deliveryCity : Option String
  sLA_Status : Option String
deriving DecidableEq

/-- One row of the support-ticket CSV.  `emailDomain` models the derived
`Email Domain` column that `analyze_tickets` writes into the frame. -/
structure TicketRow where
  contactId : Option String
  subject : Option String
  status : Option String
  emailDomain : Option String
deriving DecidableEq

/-- Scalar equality of pandas on possibly missing values: `NaN == x` is
`False`, in particular `NaN == NaN` is `False`.  Used by the row selection
`df[df["Order Category"] == category]`. -/
def eqPandas (a b : Option String) : Bool :=
  match a, b with
  | some x, some y => decide (x = y)
  | _, _ => false

/-- Function `calculate_sla_status` from `dataprocess4.py` (lines 38-66).  The
`pd.isna` guards become the `match` on the two optional timestamps; the
timezone normalisation is dropped because modelled timestamps are naive
integers; the per-row `try/except` is unreachable in the pure model. -/
def calculate_sla_status (row : OrderRow) : String :=
  match row.orderCreateDateTime, row.deliveredAtDateTime with
  | some create_time, some deliver_time =>
    let delivery_time : ℚ := ((deliver_time - create_time : ℤ) : ℚ) / 3600
    let threshold : ℚ :=
      if row.orderCategory = some ("F&B") then 1
      else if row.orderCategory = some ("Grocery") then 3
      else 5 * 24
    if delivery_time ≤ threshold then ("Within SLA") else ("SLA Breached")
  | _, _ => ("NA")

/-- The assignment `df["SLA_Status"] = df.apply(calculate_sla_status, axis=1)`
performed at the top of `create_sla_summary` and `create_sla_charts`. -/
def assign_sla_status (df : List OrderRow) : List OrderRow :=
  df.map (fun r => { r with sLA_Status := some (calculate_sla_status r) })

/-- The row selection `df[df["Order Category"] == category]`. -/
def category_rows (df : List OrderRow) (category : Option String) : List OrderRow :=
  df.filter (fun r => eqPandas r.orderCategory category)

/-- The row selection `category_df[category_df["SLA_Status"] != "NA"]`. -/
def valid_orders_of (df : List OrderRow) (category : Option String) : List OrderRow :=
  (category_rows df category).filter (fun r => decide (r.sLA_Status ≠ some ("NA")))

/-- Round-half-to-even on rationals, the rounding mode of
`pandas.Series.round` (numpy rounding). -/
def roundHalfEven (x : ℚ) : ℤ :=
  let f := ⌊x⌋
  if x - f < 1 / 2 then f
  else if 1 / 2 < x - f then f + 1
  else if f % 2 = 0 then f else f + 1

/-- Rounding `.round(2)`: round to two decimal places. -/
def round2 (x : ℚ) : ℚ := (roundHalfEven (x * 100) : ℚ) / 100

/-- The two-column frame of statuses "Within SLA" and "SLA Breached" with
their counts and the derived `Percentage` column, one summary per
category. -/
structure SLASummary where
  countWithin : Nat
  countBreached : Nat
  pctWithin : ℚ
  pctBreached : ℚ
deriving DecidableEq

/-- The summary frame built inside the loop of `create_sla_summary`
(lines 82-89): the two counts over `valid_orders` and the percentage column
`(sla_summary["Count"] / len(valid_orders) * 100).round(2)`. -/
def summary_of (valid_orders : List OrderRow) : SLASummary :=
  let countWithin :=
    (valid_orders.filter (fun r => decide (r.sLA_Status = some ("Within SLA")))).length
  let countBreached :=
    (valid_orders.filter (fun r => decide (r.sLA_Status = some ("SLA Breached")))).length
  { countWithin := countWithin
    countBreached := countBreached
    pctWithin := round2 ((countWithin : ℚ) / (valid_orders.length : ℚ) * 100)
    pctBreached := round2 ((countBreached : ℚ) / (valid_orders.length : ℚ) * 100) }

/-- One iteration of the `for category in categories` loop of
`create_sla_summary`: a summary is produced only when the category selection
is non-empty and it contains at least one row with a defined SLA status. -/
def sla_summary_for (df : List OrderRow) (category : Option String) :
    Option (Option String × SLASummary) :=
  if 0 < (category_rows df category).length then
    if 0 < (valid_orders_of df category).length then
      some (category, summary_of (valid_orders_of df category))
    else none
  else none

/-- Function `create_sla_summary` from `dataprocess4.py` (lines 68-92).  It first
assigns the `SLA_Status` column into the frame (modelled by returning the
updated frame as second component), then builds one summary per unique
category.  `df["Order Category"].unique()` is modelled by `dedup` of the
category column; pandas keeps first-occurrence order, which no claim
depends on. -/
def create_sla_summary (df : List OrderRow) :
    List (Option String × SLASummary) × List OrderRow :=
  let df' := assign_sla_status df
  let categories := (df'.map (fun r => r.orderCategory)).dedup
  (categories.filterMap (sla_summary_for df'), df')

/-- Method `Series.value_counts()`: occurrence counts of the distinct non-missing
values of a column (pandas drops NaN).  pandas additionally sorts the result
by descending count; no claim depends on the order, so the enumeration
order of `dedup` is kept. -/
def value_counts (col : List (Option String)) : List (String × Nat) :=
  let vs := col.filterMap id
  vs.dedup.map (fun v => (v, vs.count v))

/-- Function `create_ticket_status_tracker` from `dataprocess4.py` (lines 120-125):
the pie chart of `df["Order Status"].value_counts()`.  The frame is
returned unchanged: `value_counts` does not mutate it. -/
def create_ticket_status_tracker (df : List OrderRow) :
    List (String × Nat) × List OrderRow :=
  (value_counts (df.map (fun r => r.orderStatus)), df)

/-- Function `create_category_summary` from `dataprocess4.py` (lines 127-133):
the bar chart of `df["Order Category"].value_counts()`. -/
def create_category_summary (df : List OrderRow) :
    List (String × Nat) × List OrderRow :=
  (value_counts (df.map (fun r => r.orderCategory)), df)

/-- Function `create_city_summary` from `dataprocess4.py` (lines 135-140):
the pie chart of `df["Delivery City"].value_counts()`. -/
def create_city_summary (df : List OrderRow) :
    List (String × Nat) × List OrderRow :=
  (value_counts (df.map (fun r => r.deliveryCity)), df)

/-- Character class `[\w.-]` of the domain regex (an ASCII model of the
Python `\w`: letters, digits and underscore). -/
def isDomainChar (c : Char) : Bool :=
  c.isAlphanum || c = '_' || c = '.' || c = '-'

/-- Leftmost match of `re.search(r"@([\w.-]+)", s)`, returning capture
group 1: the maximal run of `[\w.-]` characters after the first `@` that is
followed by at least one such character. -/
def findDomainMatch : List Char → Option (List Char)
  | [] => none
  | c :: rest =>
    if c = '@' then
      match rest.takeWhile isDomainChar with
      | [] => findDomainMatch rest
      | run => some run
    else findDomainMatch rest

/-- Function `extract_email_domain` from `ticket_analysis.py` (lines 7-11). -/
def extract_email_domain (email : Option String) : String :=
  match email with
  | none => ("Unknown")
  | some s =>
    match findDomainMatch s.toList with
    | some run => String.mk run
    | none => ("Unknown")

/-- Substring occurrence test: does `l` contain `p` as a contiguous run? -/
def hasSubstr (p : List Char) : List Char → Bool
  | [] => p.isEmpty
  | c :: t => p.isPrefixOf (c :: t) || hasSubstr p t

/-- ASCII lower-casing of a character sequence (the effect of
`re.IGNORECASE` for the ASCII patterns in use). -/
def lowerChars (l : List Char) : List Char := l.map Char.toLower

/-- Case-insensitive substring test, the semantics of one alternative of
`Series.str.contains(pat, case=False)`. -/
def ciHasSubstr (s pat : String) : Bool :=
  hasSubstr (lowerChars pat.toList) (lowerChars s.toList)

/-- The pattern test `str.contains("order|Order|OID", case=False)` of
`ticket_analysis.py` line 50: the regex is an alternation of three plain
words searched case-insensitively. -/
def subject_contains_order_pattern (s : String) : Bool :=
  ciHasSubstr s ("order") || ciHasSubstr s ("Order") || ciHasSubstr s ("OID")

/-- The outputs of `analyze_tickets` that the claims mention: the three
metrics, the status distribution, and the two pattern counts.  (The
top-10 email-domain chart is omitted: no claim depends on it.) -/
structure TicketOutput where
  totalTickets : Nat
  openTickets : Nat
  waitingTickets : Nat
  status_dist : List (String × Nat)
  order_related : Nat
  fwd_tickets : Nat
deriving DecidableEq

/-- Function `analyze_tickets` from `ticket_analysis.py` (lines 13-66).  The first
statement assigns the derived `Email Domain` column into the frame
(returned as second component).  `str.contains(..., na=False)` and
`str.startswith("Fwd:", na=False)` treat a missing subject as
non-matching. -/
def analyze_tickets (df : List TicketRow) : TicketOutput × List TicketRow :=
  let df' := df.map (fun r => { r with emailDomain := some (extract_email_domain r.contactId) })
  let status_dist := value_counts (df'.map (fun r => r.status))
  let order_related := (df'.map (fun r => r.subject)).countP (fun s =>
    match s with
    | some s => subject_contains_order_pattern s
    | none => false)
  let fwd_tickets := (df'.map (fun r => r.subject)).countP (fun s =>
    match s with
    | some s => ("Fwd:").isPrefixOf s
    | none => false)
  ({ totalTickets := df'.length
     openTickets := (df'.filter (fun r => decide (r.status = some ("Open")))).length
     waitingTickets :=
       (df'.filter (fun r => decide (r.status = some ("Waiting on Third Party")))).length
     status_dist := status_dist
     order_related := order_related
     fwd_tickets := fwd_tickets }, df')

/-! ### Raw tables and column lookup

For the error-handling claim the scripts are also modelled one level lower:
a raw CSV table is an association list from column names to columns of raw
string cells, and `df[name]` on an absent column is a `KeyError`, modelled
in the `Except` monad.  A raw cell equal to `""` is a missing value. -/

/-- A raw loaded CSV: column name to column of raw cells. -/
abbrev RawTable := List (String × List String)

/-- Column access `df[name]`: a lookup raising `KeyError` when absent. -/
def getCol (t : RawTable) (name : String) : Except String (List String) :=
  match t.lookup name with
  | some v => Except.ok v
  | none => Except.error ("KeyError: " ++ name)

/-- Timestamp coercion (`pd.to_datetime(..., errors="coerce")`) is delegated
to the data-frame library and explicitly out of scope (spec section 1);
it is modelled abstractly: a cell holding a decimal integer is that many
epoch seconds, anything else coerces to the missing marker `none`. -/
def parseTimestamp (s : String) : Option Int := s.toInt?

/-- The `status_mapping` dict of `load_and_process_data` (lines 28-32);
`Series.map` sends unmapped statuses to NaN. -/
def statusMapping (s : String) : Option Nat :=
  if s = "Completed" then some 100
  else if s = "In-progress" then some 75
  else if s = "Accepted" then some 25
  else none

/-- An empty raw cell is the pandas missing value. -/
def cellToOpt (s : String) : Option String :=
  if s = "" then none else some s

/-- The columns of the frame produced by `load_and_process_data`, in the
order the function touches them. -/
structure LoadedOrders where
  orderCreate : List (Option Int)
  deliveredAt : List (Option Int)
  shippedAt : List (Option Int)
  readyToShipAt : List (Option Int)
  cancelledAt : List (Option Int)
  orderHour : List (Option Int)
  orderStatus : List (Option String)
  progressStatus : List (Option Nat)

/-- Function `load_and_process_data` from `dataprocess4.py` (lines 9-35), at the
raw-table level: it reads six named columns (a `KeyError` on any absent
one propagates: the order script installs no handler), coerces the five
date columns, derives `Order Hour` from the creation time and
`Progress_Status` from `Order Status`. -/
def load_and_process_data (t : RawTable) : Except String LoadedOrders :=
  match getCol t ("Order Create Date & Time") with
  | Except.error e => Except.error e
  | Except.ok createRaw =>
  match getCol t ("Delivered At Date & Time") with
  | Except.error e => Except.error e
  | Except.ok deliveredRaw =>
  match getCol t ("Shipped At Date & Time") with
  | Except.error e => Except.error e
  | Except.ok shippedRaw =>
  match getCol t ("Ready to Ship At Date & Time") with
  | Except.error e => Except.error e
  | Except.ok readyRaw =>
  match getCol t ("Cancelled At Date & Time") with
  | Except.error e => Except.error e
  | Except.ok cancelledRaw =>
  match getCol t ("Order Status") with
  | Except.error e => Except.error e
  | Except.ok statusRaw =>
    let orderCreate := createRaw.map parseTimestamp
    Except.ok
      { orderCreate := orderCreate
        deliveredAt := deliveredRaw.map parseTimestamp
        shippedAt := shippedRaw.map parseTimestamp
        readyToShipAt := readyRaw.map parseTimestamp
        cancelledAt := cancelledRaw.map parseTimestamp
        orderHour := orderCreate.map (fun o => o.map (fun s => s / 3600 % 24))
        orderStatus := statusRaw.map cellToOpt
        progressStatus := statusRaw.map statusMapping }

/-- The expected columns read by `load_and_process_data`. -/
def orderExpectedColumns : List String :=
  ["Order Create Date & Time", "Delivered At Date & Time",
   "Shipped At Date & Time", "Ready to Ship At Date & Time",
   "Cancelled At Date & Time", "Order Status"]

/-- The expected columns read by `analyze_tickets`. -/
def ticketExpectedColumns : List String :=
  ["Contact ID", "Status", "Subject"]

/-- Row-wise view of the three ticket columns. -/
def buildTicketRows : List String → List String → List String → List TicketRow
  | c :: cs, s :: ss, u :: us =>
    { contactId := cellToOpt c, subject := cellToOpt u,
      status := cellToOpt s, emailDomain := none } :: buildTicketRows cs ss us
  | _, _, _ => []

/-- Function `analyze_tickets` at the raw-table level: the three column reads it
performs, in source order (`Contact ID` line 15, `Status` lines 25-31,
`Subject` lines 50-51), each a potential `KeyError`. -/
def analyze_tickets_raw (t : RawTable) : Except String (TicketOutput × List TicketRow) :=
  match getCol t ("Contact ID") with
  | Except.error e => Except.error e
  | Except.ok contacts =>
  match getCol t ("Status") with
  | Except.error e => Except.error e
  | Except.ok statuses =>
  match getCol t ("Subject") with
  | Except.error e => Except.error e
  | Except.ok subjects =>
    Except.ok (analyze_tickets (buildTicketRows contacts statuses subjects))

/-- What the `main` of the ticket script renders. -/
inductive TicketPage where
  | rendered : TicketOutput → TicketPage
  | errorShown : String → TicketPage
deriving DecidableEq

/-- Function `main` from `ticket_analysis.py` (lines 68-83) for an uploaded file
whose CSV parse succeeds.  The `try/except` wraps BOTH the CSV read and the
whole of `analyze_tickets`, so any exception from the analysis is caught
and surfaced as `st.error(...)`.  The outer `Except` is the channel for an
exception escaping `main`: it is never used, reflecting the catch-all. -/
def ticket_main (t : RawTable) : Except String TicketPage :=
  match analyze_tickets_raw t with
  | Except.ok (out, _) => Except.ok (TicketPage.rendered out)
  | Except.error e => Except.ok (TicketPage.errorShown ("Error reading the file: " ++ e))

/-! ### Helper lemmas -/

/-- Function `calculate_sla_status` can only produce one of its three literals. -/
lemma sla_status_cases (r : OrderRow) :
    calculate_sla_status r = "NA" ∨ calculate_sla_status r = "Within SLA" ∨
      calculate_sla_status r = "SLA Breached" := by
  obtain ⟨oc, od, cat, os, city, sla⟩ := r
  cases oc <;> cases od <;> simp only [calculate_sla_status] <;>
    first
      | (left; trivial)
      | (split_ifs <;> simp)

lemma eqPandas_eq_true {a b : Option String} :
    eqPandas a b = true ↔ ∃ x, a = some x ∧ b = some x := by
  cases a <;> cases b <;> simp [eqPandas]
  exact eq_comm

/-- The counts column of `value_counts` sums to the number of non-missing
cells. -/
lemma sum_value_counts (col : List (Option String)) :
    ((value_counts col).map Prod.snd).sum = (col.filterMap id).length := by
  simp only [value_counts, List.map_map]
  exact List.sum_map_count_dedup_eq_length _

lemma length_filterMap_id (col : List (Option String)) :
    (col.filterMap id).length = (col.filter (fun o => o.isSome)).length := by
  induction col with
  | nil => rfl
  | cons a t ih => cases a <;> simp [ih]

lemma length_filter_isSome_map {α : Type} (f : α → Option String) (l : List α) :
    ((l.map f).filter (fun o => o.isSome)).length
      = (l.filter (fun r => (f r).isSome)).length := by
  induction l with
  | nil => rfl
  | cons a t ih => by_cases h : (f a).isSome <;> simp [h, ih]

lemma sum_value_counts_col {α : Type} (f : α → Option String) (l : List α) :
    ((value_counts (l.map f)).map Prod.snd).sum
      = (l.filter (fun r => (f r).isSome)).length := by
  rw [sum_value_counts, length_filterMap_id, length_filter_isSome_map]

/-- Round-half-to-even differs from its argument by at most a half. -/
lemma abs_roundHalfEven_sub_le (x : ℚ) : |(roundHalfEven x : ℚ) - x| ≤ 1 / 2 := by
  have h0 : (⌊x⌋ : ℚ) ≤ x := Int.floor_le x
  have h1 : x < ⌊x⌋ + 1 := Int.lt_floor_add_one x
  simp only [roundHalfEven]
  split_ifs <;> rw [abs_le] <;> constructor <;> push_cast <;> linarith

lemma abs_round2_sub_le (x : ℚ) : |round2 x - x| ≤ 1 / 200 := by
  have h := abs_roundHalfEven_sub_le (x * 100)
  rw [round2]
  have heq : (roundHalfEven (x * 100) : ℚ) / 100 - x
      = ((roundHalfEven (x * 100) : ℚ) - x * 100) / 100 := by ring
  rw [heq, abs_div, abs_of_pos (by norm_num : (0:ℚ) < 100)]
  linarith

lemma sla_summary_for_eq_some {df : List OrderRow} {a c : Option String} {s : SLASummary}
    (h : sla_summary_for df a = some (c, s)) :
    a = c ∧ 0 < (valid_orders_of df c).length ∧ s = summary_of (valid_orders_of df c) := by
  unfold sla_summary_for at h
  split_ifs at h with h1 h2
  · simp only [Option.some.injEq, Prod.mk.injEq] at h
    obtain ⟨rfl, rfl⟩ := h
    exact ⟨rfl, h2, rfl⟩

lemma sla_summary_for_pos {df : List OrderRow} {c : Option String}
    (h : 0 < (valid_orders_of df c).length) :
    sla_summary_for df c = some (c, summary_of (valid_orders_of df c)) := by
  have hcat : 0 < (category_rows df c).length :=
    lt_of_lt_of_le h (List.length_filter_le _ _)
  unfold sla_summary_for
  rw [if_pos hcat, if_pos h]

/-- Membership in the summary list of `create_sla_summary`, characterised. -/
lemma mem_create_sla_summary {df : List OrderRow} {c : Option String} {s : SLASummary} :
    (c, s) ∈ (create_sla_summary df).1 ↔
      0 < (valid_orders_of (assign_sla_status df) c).length ∧
        s = summary_of (valid_orders_of (assign_sla_status df) c) := by
  constructor
  · intro h
    rw [create_sla_summary, List.mem_filterMap] at h
    obtain ⟨a, _, ha⟩ := h
    obtain ⟨rfl, hpos, hs⟩ := sla_summary_for_eq_some ha
    exact ⟨hpos, hs⟩
  · rintro ⟨hpos, rfl⟩
    rw [create_sla_summary, List.mem_filterMap]
    refine ⟨c, ?_, sla_summary_for_pos hpos⟩
    obtain ⟨r, hr⟩ := List.length_pos_iff_exists_mem.mp hpos
    rw [valid_orders_of, List.mem_filter] at hr
    obtain ⟨hr1, _⟩ := hr
    rw [category_rows, List.mem_filter] at hr1
    obtain ⟨hmem, hcat⟩ := hr1
    obtain ⟨x, hx1, hx2⟩ := eqPandas_eq_true.mp hcat
    rw [List.mem_dedup, List.mem_map]
    exact ⟨r, hmem, by rw [hx1, hx2]⟩

/-- Rows surviving the `SLA_Status != "NA"` selection on the frame with the
assigned column have one of the two definite statuses. -/
lemma valid_status_mem {df : List OrderRow} {c : Option String} {r : OrderRow}
    (hr : r ∈ valid_orders_of (assign_sla_status df) c) :
    r.sLA_Status = some ("Within SLA") ∨ r.sLA_Status = some ("SLA Breached") := by
  rw [valid_orders_of, List.mem_filter] at hr
  obtain ⟨hr1, hne⟩ := hr
  rw [category_rows, List.mem_filter] at hr1
  obtain ⟨hmem, _⟩ := hr1
  rw [assign_sla_status, List.mem_map] at hmem
  obtain ⟨r0, _, rfl⟩ := hmem
  rcases sla_status_cases r0 with h | h | h
  · exfalso
    simp [h] at hne
  · left
    simp [h]
  · right
    simp [h]

lemma count_partition (l : List OrderRow)
    (h : ∀ r ∈ l, r.sLA_Status = some ("Within SLA") ∨ r.sLA_Status = some ("SLA Breached")) :
    (l.filter (fun r => decide (r.sLA_Status = some ("Within SLA")))).length
      + (l.filter (fun r => decide (r.sLA_Status = some ("SLA Breached")))).length
      = l.length := by
  induction l with
  | nil => rfl
  | cons a t ih =>
    have ha := h a (by simp)
    have ht := ih (fun r hr => h r (by simp [hr]))
    rcases ha with ha | ha <;> simp [List.filter_cons, ha] <;> omega

lemma summary_of_counts {l : List OrderRow}
    (h : ∀ r ∈ l, r.sLA_Status = some ("Within SLA") ∨ r.sLA_Status = some ("SLA Breached")) :
    (summary_of l).countWithin + (summary_of l).countBreached = l.length :=
  count_partition l h

lemma summary_of_pct {l : List OrderRow} (h0 : 0 < l.length)
    (h : ∀ r ∈ l, r.sLA_Status = some ("Within SLA") ∨ r.sLA_Status = some ("SLA Breached")) :
    |(summary_of l).pctWithin + (summary_of l).pctBreached - 100| ≤ 1 / 100 := by
  have hsum := count_partition l h
  have hn : ((l.length : ℚ)) ≠ 0 := Nat.cast_ne_zero.mpr h0.ne'
  set cw := (l.filter (fun r => decide (r.sLA_Status = some ("Within SLA")))).length with hcw
  set cb := (l.filter (fun r => decide (r.sLA_Status = some ("SLA Breached")))).length with hcb
  set xw : ℚ := (cw : ℚ) / (l.length : ℚ) * 100 with hxw
  set xb : ℚ := (cb : ℚ) / (l.length : ℚ) * 100 with hxb
  have hx : xw + xb = 100 := by
    rw [hxw, hxb]
    field_simp
    have : ((cw : ℚ) + (cb : ℚ)) = (l.length : ℚ) := by
      push_cast [← hsum]
      ring
    linarith
  have h1 := abs_round2_sub_le xw
  have h2 := abs_round2_sub_le xb
  have hval : (summary_of l).pctWithin + (summary_of l).pctBreached - 100
      = (round2 xw - xw) + (round2 xb - xb) := by
    simp only [summary_of]
    rw [← hcw, ← hcb, ← hxw, ← hxb]
    linarith
  rw [hval]
  calc |(round2 xw - xw) + (round2 xb - xb)|
      ≤ |round2 xw - xw| + |round2 xb - xb| := abs_add _ _
    _ ≤ 1 / 200 + 1 / 200 := add_le_add h1 h2
    _ = 1 / 100 := by norm_num

/-- The per-category selection has a valid row exactly when some source row
of that (string) category classifies away from `NA`. -/
lemma valid_pos_iff {df : List OrderRow} {k : Option String} :
    0 < (valid_orders_of (assign_sla_status df) k).length ↔
      ∃ c, k = some c ∧ ∃ r ∈ df, r.orderCategory = some c ∧
        calculate_sla_status r ≠ "NA" := by
  rw [List.length_pos_iff_exists_mem]
  constructor
  · rintro ⟨r, hr⟩
    have hst := valid_status_mem hr
    rw [valid_orders_of, List.mem_filter] at hr
    obtain ⟨hr1, hne⟩ := hr
    rw [category_rows, List.mem_filter] at hr1
    obtain ⟨hmem, hcat⟩ := hr1
    obtain ⟨x, hx1, hx2⟩ := eqPandas_eq_true.mp hcat
    rw [assign_sla_status, List.mem_map] at hmem
    obtain ⟨r0, hr0, rfl⟩ := hmem
    refine ⟨x, hx2, r0, hr0, hx1, ?_⟩
    intro hna
    simp [hna] at hne
  · rintro ⟨c, rfl, r, hrdf, hcat, hne⟩
    refine ⟨{ r with sLA_Status := some (calculate_sla_status r) }, ?_⟩
    rw [valid_orders_of, List.mem_filter, category_rows, List.mem_filter]
    refine ⟨⟨?_, ?_⟩, ?_⟩
    · rw [assign_sla_status, List.mem_map]
      exact ⟨r, hrdf, rfl⟩
    · exact eqPandas_eq_true.mpr ⟨c, hcat, rfl⟩
    · simpa using hne

lemma load_ok_imp_present {t : RawTable} {o : LoadedOrders}
    (h : load_and_process_data t = Except.ok o) :
    ∀ name ∈ orderExpectedColumns, (t.lookup name).isSome := by
  intro name hmem
  unfold load_and_process_data getCol at h
  rcases h1 : t.lookup ("Order Create Date & Time") with _ | v1 <;> rw [h1] at h
  · simp at h
  rcases h2 : t.lookup ("Delivered At Date & Time") with _ | v2 <;> rw [h2] at h
  · simp at h
  rcases h3 : t.lookup ("Shipped At Date & Time") with _ | v3 <;> rw [h3] at h
  · simp at h
  rcases h4 : t.lookup ("Ready to Ship At Date & Time") with _ | v4 <;> rw [h4] at h
  · simp at h
  rcases h5 : t.lookup ("Cancelled At Date & Time") with _ | v5 <;> rw [h5] at h
  · simp at h
  rcases h6 : t.lookup ("Order Status") with _ | v6 <;> rw [h6] at h
  · simp at h
  fin_cases hmem <;> simp [h1, h2, h3, h4, h5, h6]

lemma tickets_ok_imp_present {t : RawTable} {o : TicketOutput × List TicketRow}
    (h : analyze_tickets_raw t = Except.ok o) :
    ∀ name ∈ ticketExpectedColumns, (t.lookup name).isSome := by
  intro name hmem
  unfold analyze_tickets_raw getCol at h
  rcases h1 : t.lookup ("Contact ID") with _ | v1 <;> rw [h1] at h
  · simp at h
  rcases h2 : t.lookup ("Status") with _ | v2 <;> rw [h2] at h
  · simp at h
  rcases h3 : t.lookup ("Subject") with _ | v3 <;> rw [h3] at h
  · simp at h
  fin_cases hmem <;> simp [h1, h2, h3]

/-! ### Claims -/

/-- C2: a missing creation or delivery timestamp yields status `NA`. -/
theorem sla_missing_timestamp_na (r : OrderRow)
    (h : r.orderCreateDateTime = none ∨ r.deliveredAtDateTime = none) :
    calculate_sla_status r = "NA" := by
  obtain ⟨oc, od, cat, os, city, sla⟩ := r
  simp only at h
  rcases h with h | h <;> subst h
  · cases od <;> rfl
  · cases oc <;> rfl

/-- C2 witness: a concrete row with a missing creation timestamp. -/
theorem sla_missing_timestamp_na_witness :
    calculate_sla_status ⟨none, some 3600, some ("F&B"), none, none, none⟩ = "NA" :=
  sla_missing_timestamp_na _ (Or.inl rfl)

/-- C7: email-domain extraction yields `example.com` on
`user@example.com`, and `Unknown` on a missing value and on the empty
string. -/
theorem email_domain_extraction :
    extract_email_domain (some ("user@example.com")) = "example.com"
  ∧ extract_email_domain none = "Unknown"
  ∧ extract_email_domain (some ("")) = "Unknown" := by
  refine ⟨?_, rfl, rfl⟩
  decide

/-- C5: in each distribution aggregator (order status, order category,
delivery city, ticket status) the per-value counts sum to the number of
rows with a non-missing cell in the grouped column. -/
theorem distribution_counts_total (df : List OrderRow) (tdf : List TicketRow) :
    (((create_ticket_status_tracker df).1.map Prod.snd).sum
        = (df.filter (fun r => r.orderStatus.isSome)).length)
  ∧ (((create_category_summary df).1.map Prod.snd).sum
        = (df.filter (fun r => r.orderCategory.isSome)).length)
  ∧ (((create_city_summary df).1.map Prod.snd).sum
        = (df.filter (fun r => r.deliveryCity.isSome)).length)
  ∧ (((analyze_tickets tdf).1.status_dist.map Prod.snd).sum
        = (tdf.filter (fun r => r.status.isSome)).length) := by
  refine ⟨sum_value_counts_col _ _, sum_value_counts_col _ _, sum_value_counts_col _ _, ?_⟩
  simp only [analyze_tickets, List.map_map]
  exact sum_value_counts_col _ _

/-- C10: the `Order Related` count is exactly the number of rows whose
subject matches `order|Order|OID` case-insensitively; a subject containing
`oid` inside another word (`void`, `avoid`) matches; a missing subject is
not counted. -/
theorem order_related_pattern_count :
    (∀ df : List TicketRow,
      (analyze_tickets df).1.order_related
        = (df.filter (fun r =>
            match r.subject with
            | some s => subject_contains_order_pattern s
            | none => false)).length)
  ∧ subject_contains_order_pattern ("void") = true
  ∧ subject_contains_order_pattern ("avoid") = true
  ∧ (analyze_tickets
      [{ contactId := none, subject := none, status := none, emailDomain := none }]).1.order_related
      = 0 := by
  refine ⟨?_, by decide, by decide, by decide⟩
  intro df
  simp only [analyze_tickets, List.map_map]
  rw [List.countP_map, List.countP_eq_length_filter]
  rfl


/-- C3 (amended): the three distribution aggregators leave the frame
unchanged; `create_sla_summary` changes exactly the `SLA_Status` column
(setting it to the classification of each row) and `analyze_tickets`
changes exactly the `Email Domain` column; every other column is
preserved, and each derived output is a function of the input frame
alone. -/
theorem aggregator_frame_effects :
    (∀ df : List OrderRow, (create_ticket_status_tracker df).2 = df)
  ∧ (∀ df : List OrderRow, (create_category_summary df).2 = df)
  ∧ (∀ df : List OrderRow, (create_city_summary df).2 = df)
  ∧ (∀ df : List OrderRow,
      ((create_sla_summary df).2).map (fun r => { r with sLA_Status := none })
        = df.map (fun r => { r with sLA_Status := none }))
  ∧ (∀ df : List OrderRow,
      ((create_sla_summary df).2).map (fun r => r.sLA_Status)
        = df.map (fun r => some (calculate_sla_status r)))
  ∧ (∀ tdf : List TicketRow,
      ((analyze_tickets tdf).2).map (fun r => { r with emailDomain := none })
        = tdf.map (fun r => { r with emailDomain := none }))
  ∧ (∀ tdf : List TicketRow,
      ((analyze_tickets tdf).2).map (fun r => r.emailDomain)
        = tdf.map (fun r => some (extract_email_domain r.contactId))) := by
  refine ⟨fun df => rfl, fun df => rfl, fun df => rfl, ?_, ?_, ?_, ?_⟩ <;>
    intro l <;>
    simp only [create_sla_summary, assign_sla_status, analyze_tickets, List.map_map] <;>
    rfl

/-- C3 counterexample: `create_sla_summary` does NOT leave its input frame
unchanged — on a one-row frame without the `SLA_Status` column it returns
the frame with that column added. -/
theorem aggregator_mutates_input :
    (create_sla_summary [⟨none, none, some ("F&B"), none, none, none⟩]).2
      ≠ [⟨none, none, some ("F&B"), none, none, none⟩] := by
  decide

/-- C4 (amended): a missing expected column makes `load_and_process_data`
fail with a propagating (uncaught) lookup error in the order script, while
in the ticket script the failure from `analyze_tickets` is caught by the
`try/except` of `main` (which wraps both the CSV read and the analysis)
and surfaced as an error page, not an escaping exception. -/
theorem missing_column_error_handling :
    (∀ t : RawTable, ∀ name ∈ orderExpectedColumns, t.lookup name = none →
        ∃ e, load_and_process_data t = Except.error e)
  ∧ (∀ t : RawTable, ∀ name ∈ ticketExpectedColumns, t.lookup name = none →
        ∃ m, ticket_main t = Except.ok (TicketPage.errorShown m)) := by
  constructor
  · intro t name hmem hnone
    cases h : load_and_process_data t with
    | error e => exact ⟨e, rfl⟩
    | ok o =>
      have := load_ok_imp_present h name hmem
      rw [hnone] at this
      simp at this
  · intro t name hmem hnone
    cases h : analyze_tickets_raw t with
    | error e =>
      refine ⟨"Error reading the file: " ++ e, ?_⟩
      rw [ticket_main, h]
    | ok o =>
      have := tickets_ok_imp_present h name hmem
      rw [hnone] at this
      simp at this

/-- C4 witness: the empty table lacks every expected column; the order
loader errors and the ticket main shows a caught error page. -/
theorem missing_column_error_handling_witness :
    (∃ e, load_and_process_data [] = Except.error e)
  ∧ (∃ m, ticket_main [] = Except.ok (TicketPage.errorShown m)) :=
  ⟨missing_column_error_handling.1 [] ("Order Create Date & Time") (by decide) rfl,
   missing_column_error_handling.2 [] ("Contact ID") (by decide) rfl⟩

/-- C4 counterexample: on a table lacking the `Subject` column the ticket
script the lookup failure IS caught — `main` renders an error page instead
of letting the exception escape. -/
theorem ticket_lookup_failure_is_caught :
    (([("Contact ID", []), ("Status", [])] : RawTable).lookup ("Subject") = none)
  ∧ ticket_main [("Contact ID", []), ("Status", [])]
      = Except.ok (TicketPage.errorShown ("Error reading the file: KeyError: Subject")) := by
  constructor
  · rfl
  · rfl

/-- C1: with both timestamps present, the status compares the elapsed
hours between creation and delivery against the category threshold
(F&B 1 hour, Grocery 3 hours, every other category 120 hours):
`Within SLA` when elapsed hours are at most the threshold (the boundary is
inclusive), `SLA Breached` when they exceed it. -/
theorem sla_threshold_classification (r : OrderRow) (c d : ℤ)
    (hc : r.orderCreateDateTime = some c) (hd : r.deliveredAtDateTime = some d) :
    (calculate_sla_status r = "Within SLA" ↔
      ((d - c : ℤ) : ℚ) / 3600 ≤
        (if r.orderCategory = some ("F&B") then (1:ℚ)
         else if r.orderCategory = some ("Grocery") then 3 else 120))
  ∧ (calculate_sla_status r = "SLA Breached" ↔
      (if r.orderCategory = some ("F&B") then (1:ℚ)
       else if r.orderCategory = some ("Grocery") then 3 else 120)
        < ((d - c : ℤ) : ℚ) / 3600) := by
  obtain ⟨oc, od, cat, os, city, sla⟩ := r
  simp only at hc hd
  subst hc
  subst hd
  simp only [calculate_sla_status]
  split_ifs <;> constructor <;> simp_all <;> norm_num <;> linarith

/-- C1 witness: a Grocery order delivered at exactly the 3-hour boundary is
within SLA. -/
theorem sla_threshold_classification_witness :
    calculate_sla_status ⟨some 0, some 10800, some ("Grocery"), none, none, none⟩
      = "Within SLA" :=
  (sla_threshold_classification _ 0 10800 rfl rfl).1.mpr (by simp <;> norm_num)

/-- C9: the keys of the SLA summary mapping are exactly the categories with
at least one row classified away from `NA`; a category all of whose rows
classify as `NA` has no entry. -/
theorem sla_summary_keys (df : List OrderRow) (k : Option String) :
    (∃ s, (k, s) ∈ (create_sla_summary df).1) ↔
      ∃ c, k = some c ∧ ∃ r ∈ df, r.orderCategory = some c ∧
        calculate_sla_status r ≠ "NA" := by
  constructor
  · rintro ⟨s, hs⟩
    exact valid_pos_iff.mp (mem_create_sla_summary.mp hs).1
  · intro h
    exact ⟨_, mem_create_sla_summary.mpr ⟨valid_pos_iff.mpr h, rfl⟩⟩

/-- C6: in every produced per-category SLA summary the two percentages sum
to 100 up to the error of rounding each one to two decimals. -/
theorem sla_percentage_sum (df : List OrderRow) (c : Option String) (s : SLASummary)
    (h : (c, s) ∈ (create_sla_summary df).1) :
    |s.pctWithin + s.pctBreached - 100| ≤ 1 / 100 := by
  obtain ⟨hpos, rfl⟩ := mem_create_sla_summary.mp h
  exact summary_of_pct hpos (fun r hr => valid_status_mem hr)

/-- C6 witness: the summary of a one-row F&B frame. -/
theorem sla_percentage_sum_witness :
    |(⟨1, 0, 100, 0⟩ : SLASummary).pctWithin
        + (⟨1, 0, 100, 0⟩ : SLASummary).pctBreached - 100| ≤ 1 / 100 :=
  sla_percentage_sum [⟨some 0, some 1800, some ("F&B"), none, none, none⟩]
    (some ("F&B")) ⟨1, 0, 100, 0⟩ (by
      have hcalc : calculate_sla_status ⟨some 0, some 1800, some ("F&B"), none, none, none⟩
          = "Within SLA" := by
        simp [calculate_sla_status]
        norm_num
      have hV : valid_orders_of
          (assign_sla_status [⟨some 0, some 1800, some ("F&B"), none, none, none⟩])
            (some ("F&B"))
          = [⟨some 0, some 1800, some ("F&B"), none, none, some ("Within SLA")⟩] := by
        simp [valid_orders_of, category_rows, assign_sla_status, eqPandas, hcalc, List.filter]
      apply mem_create_sla_summary.mpr
      rw [hV]
      refine ⟨by simp, ?_⟩
      simp [summary_of, List.filter]
      constructor <;> norm_num [round2, roundHalfEven])

/-- C8: every row classifies to one of the three status strings, and in
every produced summary the two counts sum to the number of valid rows of
that category. -/
theorem sla_status_range_and_counts :
    (∀ r : OrderRow, calculate_sla_status r = "NA" ∨ calculate_sla_status r = "Within SLA"
        ∨ calculate_sla_status r = "SLA Breached")
  ∧ (∀ (df : List OrderRow) (c : Option String) (s : SLASummary),
      (c, s) ∈ (create_sla_summary df).1 →
        s.countWithin + s.countBreached
          = (valid_orders_of (assign_sla_status df) c).length) := by
  refine ⟨sla_status_cases, ?_⟩
  intro df c s h
  obtain ⟨hpos, rfl⟩ := mem_create_sla_summary.mp h
  exact summary_of_counts (fun r hr => valid_status_mem hr)

/-- C8 witness: the count identity on a one-row F&B frame. -/
theorem sla_status_range_and_counts_witness :
    (⟨1, 0, 100, 0⟩ : SLASummary).countWithin
        + (⟨1, 0, 100, 0⟩ : SLASummary).countBreached
      = (valid_orders_of (assign_sla_status
          [⟨some 0, some 1800, some ("F&B"), none, none, none⟩]) (some ("F&B"))).length :=
  sla_status_range_and_counts.2 [⟨some 0, some 1800, some ("F&B"), none, none, none⟩]
    (some ("F&B")) ⟨1, 0, 100, 0⟩ (by
      have hcalc : calculate_sla_status ⟨some 0, some 1800, some ("F&B"), none, none, none⟩
          = "Within SLA" := by
        simp [calculate_sla_status]
        norm_num
      have hV : valid_orders_of
          (assign_sla_status [⟨some 0, some 1800, some ("F&B"), none, none, none⟩])
            (some ("F&B"))
          = [⟨some 0, some 1800, some ("F&B"), none, none, some ("Within SLA")⟩] := by
        simp [valid_orders_of, category_rows, assign_sla_status, eqPandas, hcalc, List.filter]
      apply mem_create_sla_summary.mpr
      rw [hV]
      refine ⟨by simp, ?_⟩
      simp [summary_of, List.filter]
      constructor <;> norm_num [round2, roundHalfEven])

end BflReports
